import Mathlib

/-
Verification of the Trickster_Pi controller against its specification.

Shallow embedding of the Python sources:
  - src/gpio_controller.py   (servo and LED control, modelled as event lists)
  - src/trickster.py         (superseded monolithic variant, servo part only)
  - src/audio_manager.py     (sound library: load, pick, play, info)
  - src/trickster_controller.py (the busy-flag gated two-phase sequencer)

External effects (PWM duty changes, sleeps, log prints, played sounds) are
recorded as explicit data.  Randomness (random.randint, random.uniform) is
passed in as an oracle argument.  Exceptions raised by external collaborators
are injected through an explicit fault oracle, and Python try/finally
semantics are translated case by case.
-/

namespace TricksterPi

/-! Configuration constants from src/config.py. -/

def MIN_DELAY : ℚ := 10

def MAX_DELAY : ℚ := 20

def TARGET_AUDIO_DURATION : ℚ := 60

def MIN_PAUSE_BETWEEN_SOUNDS : ℚ := 1/2

def MAX_PAUSE_BETWEEN_SOUNDS : ℚ := 2

def AUDIO_FOLDER : String := "/mnt/samba/"

/-! Servo model.  A call trace of the PWM/timing primitives: `duty d` records
`servo_pwm.ChangeDutyCycle(d)` and `sleep t` records `time.sleep(t)`. -/

/-- One externally visible servo-control action. -/
inductive ServoEvent
  | duty (d : ℚ)
  | sleep (t : ℚ)
deriving DecidableEq, Repr

namespace GPIOController

/-- Translation of GPIOController.set_servo_angle (src/gpio_controller.py:34):
duty_cycle = 2 + angle/18, hold 0.5 s, then zero the duty cycle. -/
def set_servo_angle (angle : ℚ) : List ServoEvent :=
  [ServoEvent.duty (2 + angle / 18), ServoEvent.sleep (1/2), ServoEvent.duty 0]

/-- Translation of GPIOController.rotate_servo (src/gpio_controller.py:41):
for angle in range(0, 160, 1): ChangeDutyCycle(angle/18 + 2); sleep(0.01). -/
def rotate_servo : List ServoEvent :=
  (List.range 160).flatMap (fun a => [ServoEvent.duty ((a : ℚ) / 18 + 2), ServoEvent.sleep (1/100)])

end GPIOController

namespace Trickster

/-- Translation of set_servo_angle from the monolithic src/trickster.py:75.
There the settle sleep and the duty-zeroing are commented out, so the call
emits a single duty change. -/
def set_servo_angle (angle : ℚ) : List ServoEvent :=
  [ServoEvent.duty (2 + angle / 18)]

/-- Translation of rotate_servo from the monolithic src/trickster.py:149:
set_servo_angle(160); time.sleep(3); set_servo_angle(10). -/
def rotate_servo : List ServoEvent :=
  set_servo_angle 160 ++ [ServoEvent.sleep 3] ++ set_servo_angle 10

end Trickster

/-- Nonzero duty cycles applied by a servo trace, in order.  A zero duty is
the stop-signal idiom, not a commanded position, so it is filtered out. -/
def positionDuties (evs : List ServoEvent) : List ℚ :=
  evs.filterMap fun e =>
    match e with
    | ServoEvent.duty d => if d = 0 then none else some d
    | ServoEvent.sleep _ => none

/-- Inverse of the duty formula: the angle a nonzero duty cycle commands. -/
def angleOfDuty (d : ℚ) : ℚ := (d - 2) * 18

/-- True for a sleep of at least one second: a dramatic pause, as opposed to
the 0.01 s ramp step and the 0.5 s settle. -/
def isLongPause : ServoEvent → Bool
  | ServoEvent.sleep p => decide (1 ≤ p)
  | ServoEvent.duty _ => false

/-- The trace commands an angle of at least 150 degrees at some point. -/
def reachesScaredExtreme (evs : List ServoEvent) : Bool :=
  (positionDuties evs).any fun d => decide (150 ≤ angleOfDuty d)

/-- The trace contains a pause of at least one second. -/
def hasLongPause (evs : List ServoEvent) : Bool :=
  evs.any isLongPause

/-- The last commanded position of the trace is within 30 degrees of the low
extreme. -/
def endsNearOppositeExtreme (evs : List ServoEvent) : Bool :=
  match (positionDuties evs).getLast? with
  | some d => decide (angleOfDuty d ≤ 30)
  | none => false

/-- Formalisation of the sweep contract as the spec words it — drive to a
scared extreme, pause there, and return near the opposite extreme.  This is
the spec side of the comparison; it is stated over a servo trace so the code
translations can be checked against it. -/
def sweepChoreography (evs : List ServoEvent) : Prop :=
  reachesScaredExtreme evs = true ∧ hasLongPause evs = true ∧
    endsNearOppositeExtreme evs = true

/-! Sound library model, from src/audio_manager.py.  A preloaded
pygame.mixer.Sound handle is represented by the full path it was decoded
from.  The directory listing (os.listdir) and the decode outcome
(pygame.mixer.Sound succeeding or raising pygame.error) are oracles. -/

/-- Python list.drop based suffix test: true when `suffix` is a suffix of
`l`.  Used to translate str.endswith. -/
def listEndsWith (l suffix : List Char) : Bool :=
  decide (l.drop (l.length - suffix.length) = suffix)

/-- Translation of the extension check at src/audio_manager.py:38:
filename.lower().endswith((".wav", ".mp3")).  Python str.lower is modelled
for ASCII filenames by mapping Char.toLower. -/
def isAudioFile (filename : String) : Bool :=
  let low := filename.data.map Char.toLower
  listEndsWith low ".wav".data || listEndsWith low ".mp3".data

/-- Translation of os.path.join(AUDIO_FOLDER, filename); AUDIO_FOLDER ends
in a separator, so join is concatenation. -/
def full_path (filename : String) : String := AUDIO_FOLDER ++ filename

/-- The mutable attributes of the AudioManager instance, plus the log of
print calls. -/
structure AudioState where
  preloaded_sounds : List String
  audio_filenames : List String
  log : List String
deriving DecidableEq, Repr

/-- State established by AudioManager.__init__ (src/audio_manager.py:18). -/
def initAudioState : AudioState :=
  { preloaded_sounds := [], audio_filenames := [], log := [] }

/-- Translation of the for loop of load_audio_files
(src/audio_manager.py:37): keep entries passing the extension check whose
decode succeeds, appending to both lists in listing order; a decode failure
is logged and skipped (the except pygame.error branch). -/
def loadLoop (d : String → Bool) : List String → AudioState → AudioState
  | [], s => s
  | f :: rest, s =>
    if isAudioFile f then
      if d f then
        loadLoop d rest
          { s with preloaded_sounds := s.preloaded_sounds ++ [full_path f],
                   audio_filenames := s.audio_filenames ++ [f],
                   log := s.log ++ ["  Preloaded: " ++ f] }
      else
        loadLoop d rest { s with log := s.log ++ ["  Failed to load " ++ f] }
    else
      loadLoop d rest s

/-- Translation of AudioManager.load_audio_files (src/audio_manager.py:27).
The directory listing is `none` when os.path.exists(AUDIO_FOLDER) is false,
otherwise `some` of the os.listdir result.  The method first clears both
lists, then returns early on a missing folder, else runs the load loop. -/
def load_audio_files (dirListing : Option (List String)) (d : String → Bool)
    (s : AudioState) : AudioState :=
  let s0 : AudioState := { s with preloaded_sounds := [], audio_filenames := [] }
  match dirListing with
  | none => { s0 with log := s0.log ++ ["Warning: Audio folder does not exist."] }
  | some files => loadLoop d files s0

/-- The (preloaded_sounds, audio_filenames) pairs a concurrent reader can
observe while load_audio_files runs: the CPython interpreter may switch
threads between any two bytecodes, in particular after clearing
preloaded_sounds, after clearing audio_filenames, and between the two
appends of each kept entry. -/
def loadLoopTrace (d : String → Bool) :
    List String → List String × List String → List (List String × List String)
  | [], _ => []
  | f :: rest, st =>
    if isAudioFile f then
      if d f then
        let mid := (st.1 ++ [full_path f], st.2)
        let nxt := (st.1 ++ [full_path f], st.2 ++ [f])
        mid :: nxt :: loadLoopTrace d rest nxt
      else loadLoopTrace d rest st
    else loadLoopTrace d rest st

/-- All intermediate (preloaded_sounds, audio_filenames) pairs of a reload
starting from state `s`, in program order: the pre-reload pair, the pair
after each of the two clears, and the pairs between and after the paired
appends. -/
def load_audio_files_trace (s : AudioState) (files : List String)
    (d : String → Bool) : List (List String × List String) :=
  [(s.preloaded_sounds, s.audio_filenames), ([], s.audio_filenames), ([], [])]
    ++ loadLoopTrace d files ([], [])

/-- The JSON-shaped dict returned by play_random_sound; absent keys are
`none`. -/
structure PlayResult where
  success : Bool
  message : String
  filename : Option String
  total_sounds : Option Nat
deriving DecidableEq, Repr

/-- Translation of AudioManager.play_random_sound (src/audio_manager.py:97).
The rng argument models random.randint: the code calls it with bounds 0 and
len(preloaded_sounds) - 1 and uses the result as the index into both
lists. -/
def play_random_sound (rng : Nat → Nat → Nat) (s : AudioState) : PlayResult :=
  if s.preloaded_sounds.isEmpty then
    { success := false, message := "No audio files available to play.",
      filename := none, total_sounds := none }
  else
    let sound_index := rng 0 (s.preloaded_sounds.length - 1)
    let selected_filename := s.audio_filenames.getD sound_index ""
    { success := true, message := "Playing " ++ selected_filename,
      filename := some selected_filename,
      total_sounds := some s.preloaded_sounds.length }

/-- Loop of play_audio_sequence (src/audio_manager.py:71).  Each oracle
entry (idx, dur, pause) supplies one iteration: the random.randint index
draw, the playback duration waited through pygame.mixer.get_busy, and the
random.uniform inter-sound pause.  The loop continues while the elapsed
time is below TARGET_AUDIO_DURATION. -/
def play_audio_sequence_go (names : List String) :
    List (Nat × ℚ × ℚ) → ℚ → List String → List String
  | [], _, played => played
  | c :: rest, elapsed, played =>
    if elapsed < TARGET_AUDIO_DURATION then
      play_audio_sequence_go names rest (elapsed + c.2.1 + c.2.2)
        (played ++ [names.getD c.1 ""])
    else played

/-- Translation of AudioManager.play_audio_sequence (src/audio_manager.py:59):
returns the list of filenames played.  With an empty library it returns
immediately, playing nothing. -/
def play_audio_sequence (choices : List (Nat × ℚ × ℚ)) (s : AudioState) :
    List String :=
  if s.preloaded_sounds.isEmpty then []
  else play_audio_sequence_go s.audio_filenames choices 0 []

/-! Sequencer model, from src/trickster_controller.py.  External calls that
can raise (GPIO.output inside set_led, and exceptions inside the two phase
bodies) are driven by a fault oracle; the try/finally of button_callback is
translated case by case. -/

/-- Which external call raised. -/
inductive Fault
  | ledOn
  | ledOff
deriving DecidableEq, Repr

/-- How button_callback returns: normally, or by re-raising a fault. -/
inductive Outcome
  | normal
  | raised (f : Fault)
deriving DecidableEq, Repr

/-- Fault oracle: which external interactions raise during this run. -/
structure FaultSpec where
  ledOnFaults : Bool
  ledOffFaults : Bool
  audioFaults : Bool
  servoFaults : Bool
deriving DecidableEq, Repr

/-- Process state seen by the sequencer: the busy flag, the LED level, the
trace of successful set_led calls, the sound library, the servo trace, the
sounds played and the log. -/
structure CtrlState where
  callback_in_progress : Bool
  led : Bool
  ledCalls : List Bool
  lib : AudioState
  servoEvents : List ServoEvent
  played : List String
  log : List String
deriving DecidableEq, Repr

/-- Translation of GPIOController.set_led (src/gpio_controller.py:49): on a
hardware fault GPIO.output raises and the state is unchanged; otherwise the
LED level is set and the call is recorded. -/
def set_led (fault : Bool) (b : Bool) (s : CtrlState) : CtrlState × Option Fault :=
  if fault then (s, some (if b then Fault.ledOn else Fault.ledOff))
  else ({ s with led := b, ledCalls := s.ledCalls ++ [b] }, none)

/-- Phase A as run on the audio thread.  play_audio_sequence catches every
exception in its own try/except (src/audio_manager.py:94) and logs it, so a
fault never crosses the function boundary; with no fault the played sounds
are appended. -/
def audioPhase (fault : Bool) (choices : List (Nat × ℚ × ℚ)) (s : CtrlState) :
    CtrlState :=
  if s.lib.preloaded_sounds.isEmpty then
    { s with log := s.log ++ ["No audio files available to play."] }
  else if fault then
    { s with log := s.log ++ ["Error playing audio"] }
  else
    { s with played := s.played ++ play_audio_sequence choices s.lib,
             log := s.log ++ ["Audio sequence completed"] }

/-- Phase B as run on the servo thread.  rotate_servo has no handler of its
own, but an exception in a Python thread target is printed by the threading
machinery and never propagates to the join call in button_callback. -/
def servoPhase (fault : Bool) (s : CtrlState) : CtrlState :=
  if fault then { s with log := s.log ++ ["Exception in thread servo"] }
  else { s with servoEvents := s.servoEvents ++ GPIOController.rotate_servo }

/-- Translation of TricksterController.button_callback
(src/trickster_controller.py:23).  The busy path logs and returns with no
other effect.  Otherwise the flag is set, and the try body (LED on, audio
thread, sleep for the random delay, servo thread, joins) runs; the finally
block always runs set_led False and, only if that call returns, clears the
flag; an exception from the body is re-raised after the finally block, and
an exception inside the finally block replaces it and skips the flag
reset. -/
def button_callback (fs : FaultSpec) (choices : List (Nat × ℚ × ℚ)) (delay : ℚ)
    (channel : Option Int) (s : CtrlState) : CtrlState × Outcome :=
  if s.callback_in_progress then
    ({ s with log := s.log ++ ["Button press ignored - action already in progress"] },
      Outcome.normal)
  else
    let s1 := { s with log := s.log ++ ["Button pressed!"], callback_in_progress := true }
    let ledOnRes := set_led fs.ledOnFaults true s1
    let s3 :=
      match ledOnRes.2 with
      | some _ => ledOnRes.1
      | none =>
        let s2 := { ledOnRes.1 with
                      log := ledOnRes.1.log ++ ["Starting extended audio sequence..."] }
        let sA := audioPhase fs.audioFaults choices s2
        let sB := { sA with log := sA.log ++ ["Activating servo now!"] }
        let sC := servoPhase fs.servoFaults sB
        { sC with log := sC.log ++ ["Action completed!"] }
    let ledOffRes := set_led fs.ledOffFaults false s3
    match ledOffRes.2 with
    | some f => (ledOffRes.1, Outcome.raised f)
    | none =>
      let s5 := { ledOffRes.1 with callback_in_progress := false }
      match ledOnRes.2 with
      | some f => (s5, Outcome.raised f)
      | none => (s5, Outcome.normal)

/-! Interleaving model of the busy-flag check-and-set, for the concurrency
claim.  Each thread executing button_callback performs, as separate
interpreter steps, the read-and-branch at src/trickster_controller.py:26
and the write at line 31; the scheduler may interleave the two threads
between those steps. -/

/-- Where a thread is in the check-and-set region: about to read the flag,
about to write it, past it (sequence started), or returned (press
ignored). -/
inductive TPhase
  | atCheck
  | atSet
  | running
  | rejected
deriving DecidableEq, Repr

/-- Shared flag plus the positions of two threads both invoking
button_callback. -/
structure RaceState where
  busy : Bool
  t1 : TPhase
  t2 : TPhase
deriving DecidableEq, Repr

/-- One interpreter step of a thread: the check reads the flag and branches;
the set writes true. -/
def stepThread : TPhase → Bool → TPhase × Bool
  | TPhase.atCheck, b => if b then (TPhase.rejected, b) else (TPhase.atSet, b)
  | TPhase.atSet, _ => (TPhase.running, true)
  | p, b => (p, b)

/-- Run one scheduled step: `true` steps thread 1, `false` steps thread 2. -/
def raceStep (tid : Bool) (s : RaceState) : RaceState :=
  if tid then
    let r := stepThread s.t1 s.busy
    { s with t1 := r.1, busy := r.2 }
  else
    let r := stepThread s.t2 s.busy
    { s with t2 := r.1, busy := r.2 }

/-- Run a whole schedule. -/
def raceRun (sched : List Bool) (s : RaceState) : RaceState :=
  sched.foldl (fun s t => raceStep t s) s

/-- Both threads arrive while no sequence is in flight. -/
def raceInit : RaceState :=
  { busy := false, t1 := TPhase.atCheck, t2 := TPhase.atCheck }

/-- Invariant after one thread has completed its check-and-set: the flag
stays set and the other thread can never reach the running phase. -/
def raceInv (s : RaceState) : Prop :=
  s.busy = true ∧ s.t1 = TPhase.running ∧
    (s.t2 = TPhase.atCheck ∨ s.t2 = TPhase.rejected)

/-! Heap model for the info snapshot claim: list objects live in a store and
attributes hold references, so that list.copy and attribute rebinding can be
distinguished from aliasing. -/

/-- A store of list objects; a reference is an index. -/
structure Heap where
  cells : List (List String)
deriving DecidableEq, Repr

/-- Dereference (reads out of range return the empty list; never exercised
under the validity hypotheses). -/
def readRef (h : Heap) (r : Nat) : List String := h.cells.getD r []

/-- In-place mutation of one list object. -/
def writeRef (h : Heap) (r : Nat) (v : List String) : Heap :=
  Heap.mk (h.cells.set r v)

/-- Allocate a fresh list object. -/
def allocRef (h : Heap) (v : List String) : Nat × Heap :=
  (h.cells.length, Heap.mk (h.cells ++ [v]))

/-- The AudioManager attributes as references into the heap. -/
structure AudioRefs where
  preloadedRef : Nat
  filenamesRef : Nat
deriving DecidableEq, Repr

/-- The dict returned by get_audio_info, with the sounds entry as the
reference returned by audio_filenames.copy(). -/
structure AudioInfo where
  total_sounds : Nat
  soundsRef : Nat
  audio_folder : String
deriving DecidableEq, Repr

/-- Heap-level translation of AudioManager.get_audio_info
(src/audio_manager.py:125): total_sounds is len(preloaded_sounds), sounds is
audio_filenames.copy() — a freshly allocated object with the same
contents — and audio_folder is the constant. -/
def get_audio_info (lib : AudioRefs) (h : Heap) : AudioInfo × Heap :=
  let copy := allocRef h (readRef h lib.filenamesRef)
  (AudioInfo.mk (readRef h lib.preloadedRef).length copy.1 AUDIO_FOLDER, copy.2)

/-- Heap-level translation of the attribute effects of load_audio_files:
both attributes are rebound to freshly allocated empty lists
(src/audio_manager.py:29) which the loop then fills by in-place appends;
the cells previously referenced are never written again. -/
def load_audio_files_refs (newSounds newNames : List String) (lib : AudioRefs)
    (h : Heap) : AudioRefs × Heap :=
  let a1 := allocRef h []
  let a2 := allocRef a1.2 []
  let h3 := writeRef (writeRef a2.2 a1.1 newSounds) a2.1 newNames
  (AudioRefs.mk a1.1 a2.1, h3)

/-! Helper lemmas for the servo traces. -/

lemma positionDuties_append (l1 l2 : List ServoEvent) :
    positionDuties (l1 ++ l2) = positionDuties l1 ++ positionDuties l2 := by
  simp [positionDuties, List.filterMap_append]

lemma positionDuties_ramp_step (a : ℕ) :
    positionDuties [ServoEvent.duty ((a : ℚ) / 18 + 2), ServoEvent.sleep (1/100)]
      = [(a : ℚ) / 18 + 2] := by
  have ha : ((a : ℚ) / 18 + 2) ≠ 0 := by positivity
  simp [positionDuties, ha]

lemma positionDuties_ramp (l : List ℕ) :
    positionDuties
        (l.flatMap (fun a => [ServoEvent.duty ((a : ℚ) / 18 + 2), ServoEvent.sleep (1/100)]))
      = l.map (fun (a : ℕ) => (a : ℚ) / 18 + 2) := by
  induction l with
  | nil => rfl
  | cons a t ih =>
      rw [List.flatMap_cons, positionDuties_append, positionDuties_ramp_step, List.map_cons, ih]
      rfl

lemma positionDuties_rotate_servo :
    positionDuties GPIOController.rotate_servo
      = (List.range 160).map (fun (a : ℕ) => (a : ℚ) / 18 + 2) := by
  unfold GPIOController.rotate_servo
  exact positionDuties_ramp (List.range 160)

lemma hasLongPause_rotate_servo : hasLongPause GPIOController.rotate_servo = false := by
  unfold hasLongPause GPIOController.rotate_servo
  rw [List.any_eq_false]
  intro e he
  rw [List.mem_flatMap] at he
  obtain ⟨a, -, h⟩ := he
  have h1 : (1 : ℚ) ≤ 1/100 ↔ False := by norm_num
  simp only [List.mem_cons, List.mem_singleton, List.not_mem_nil, or_false] at h
  rcases h with h | h
  · rw [h]; simp [isLongPause]
  · rw [h]
    simp only [isLongPause, decide_eq_true_eq]
    norm_num

set_option maxRecDepth 8000 in
lemma rotate_servo_length : GPIOController.rotate_servo.length = 320 := by
  decide

lemma positionDuties_trickster :
    positionDuties Trickster.rotate_servo = [2 + 160/18, 2 + 10/18] := by
  have h1 : (2 : ℚ) + 160/18 ≠ 0 := by norm_num
  have h2 : (2 : ℚ) + 10/18 ≠ 0 := by norm_num
  simp [Trickster.rotate_servo, Trickster.set_servo_angle, positionDuties, h1, h2]

lemma sweep_trickster : sweepChoreography Trickster.rotate_servo := by
  refine ⟨?_, ?_, ?_⟩
  · unfold reachesScaredExtreme
    rw [positionDuties_trickster]
    simp only [List.any_cons, List.any_nil, Bool.or_false, Bool.or_eq_true, decide_eq_true_eq,
      angleOfDuty]
    left; norm_num
  · unfold hasLongPause
    simp only [Trickster.rotate_servo, Trickster.set_servo_angle, List.cons_append,
      List.nil_append, List.any_cons, List.any_nil, isLongPause, Bool.or_false, Bool.or_eq_true,
      decide_eq_true_eq]
    norm_num
  · unfold endsNearOppositeExtreme
    rw [positionDuties_trickster]
    norm_num [angleOfDuty]

/-- Claim C5, counterexample.  The sweep actually wired into phase B
(GPIOController.rotate_servo) does not perform the drive-to-extreme,
pause, return-near-opposite choreography the claim describes: it has no
pause of a second or more and its last commanded position is the high
extreme, not near the opposite one. -/
theorem claim5_counterexample_sweep_choreography :
    sweepChoreography GPIOController.rotate_servo ↔ False := by
  refine iff_false_intro ?_
  intro h
  have h2 := h.2.1
  rw [hasLongPause_rotate_servo] at h2
  exact absurd h2 (by simp)

/-- Claim C5, amended.  GPIOController.rotate_servo (the phase-B sweep of the
modular version) is a smooth one-way ramp: its commanded duty cycles are
exactly 2 + a/18 for a = 0..159 in order, strictly increasing, with no pause
of a second or more; it is distinct from setPosition for every angle.  The
drive-pause-return choreography of the claim is realised only by the
superseded monolithic variant Trickster.rotate_servo. -/
theorem claim5_sweep_is_one_way_ramp :
    positionDuties GPIOController.rotate_servo
        = (List.range 160).map (fun (a : ℕ) => (a : ℚ) / 18 + 2) ∧
    List.Chain' (· < ·) (positionDuties GPIOController.rotate_servo) ∧
    hasLongPause GPIOController.rotate_servo = false ∧
    (∀ a : ℚ, GPIOController.rotate_servo ≠ GPIOController.set_servo_angle a) ∧
    sweepChoreography Trickster.rotate_servo := by
  refine ⟨positionDuties_rotate_servo, ?_, hasLongPause_rotate_servo, ?_, sweep_trickster⟩
  · rw [positionDuties_rotate_servo, List.chain'_map]
    rw [show (160 : ℕ) = Nat.succ 159 from rfl, List.chain'_range_succ]
    intro m hm
    have hmc : (m : ℚ) < ((m + 1 : ℕ) : ℚ) := by exact_mod_cast Nat.lt_succ_self m
    gcongr
  · intro a h
    have h1 := congrArg List.length h
    rw [rotate_servo_length] at h1
    simp [GPIOController.set_servo_angle] at h1

/-- Claim C6.  For every angle, set_servo_angle applies exactly the duty
cycle 2 + angle/18, holds it for the 0.5 s settle time and then zeroes the
duty cycle; at the sample angles 0, 90 and 180 the commanded duty cycles are
2, 7 and 12. -/
theorem claim6_set_servo_angle_duty_formula :
    (∀ a : ℚ, GPIOController.set_servo_angle a
        = [ServoEvent.duty (2 + a / 18), ServoEvent.sleep (1/2), ServoEvent.duty 0]) ∧
    positionDuties (GPIOController.set_servo_angle 0) = [2] ∧
    positionDuties (GPIOController.set_servo_angle 90) = [7] ∧
    positionDuties (GPIOController.set_servo_angle 180) = [12] := by
  refine ⟨fun a => rfl, ?_, ?_, ?_⟩ <;>
    norm_num [GPIOController.set_servo_angle, positionDuties, List.filterMap_cons,
      List.filterMap_nil]

/-! Lemmas about the load loop. -/

lemma loadLoop_filenames (d : String → Bool) (files : List String) :
    ∀ s : AudioState,
      (loadLoop d files s).audio_filenames
        = s.audio_filenames ++ files.filter (fun f => isAudioFile f && d f) := by
  induction files with
  | nil => intro s; simp [loadLoop]
  | cons f t ih =>
      intro s
      by_cases h1 : isAudioFile f <;> by_cases h2 : d f <;>
        simp [loadLoop, h1, h2, ih, List.filter_cons]

lemma loadLoop_sounds (d : String → Bool) (files : List String) :
    ∀ s : AudioState,
      (loadLoop d files s).preloaded_sounds
        = s.preloaded_sounds ++ (files.filter (fun f => isAudioFile f && d f)).map full_path := by
  induction files with
  | nil => intro s; simp [loadLoop]
  | cons f t ih =>
      intro s
      by_cases h1 : isAudioFile f <;> by_cases h2 : d f <;>
        simp [loadLoop, h1, h2, ih, List.filter_cons]

lemma loadLoop_log_mono (d : String → Bool) (files : List String) :
    ∀ (s : AudioState) (x : String), x ∈ s.log → x ∈ (loadLoop d files s).log := by
  induction files with
  | nil => intro s x hx; simpa [loadLoop] using hx
  | cons f t ih =>
      intro s x hx
      by_cases h1 : isAudioFile f <;> by_cases h2 : d f <;>
        simp only [loadLoop, h1, h2, if_true, if_false, Bool.false_eq_true] <;>
        exact ih _ _ (by simp [hx])

lemma loadLoop_failed_log (d : String → Bool) (files : List String) :
    ∀ (s : AudioState) (f : String), f ∈ files → isAudioFile f = true → d f = false →
      ("  Failed to load " ++ f) ∈ (loadLoop d files s).log := by
  induction files with
  | nil => intro s f hf; cases hf
  | cons g t ih =>
      intro s f hf haudio hfail
      rcases List.mem_cons.1 hf with h | h
      · subst h
        simp only [loadLoop, haudio, hfail, if_true, if_false, Bool.false_eq_true]
        exact loadLoop_log_mono d t _ _ (by simp)
      · by_cases h1 : isAudioFile g <;> by_cases h2 : d g <;>
          simp only [loadLoop, h1, h2, if_true, if_false, Bool.false_eq_true] <;>
          exact ih _ _ h haudio hfail

/-- Claim C7.  Loading scans the listing once, keeps exactly the entries
whose lowercased name ends in .wav or .mp3 and whose decode succeeds, in
listing order (so the loaded count is the length of that filtered list);
decode failures leave a log line; a missing directory loads nothing and does
not fail; and the a.wav, b.mp3, c.WAV, d.txt scenario keeps exactly 3
entries in listing order. -/
theorem claim7_load_audio_files :
    (∀ (files : List String) (d : String → Bool) (s : AudioState),
      (load_audio_files (some files) d s).audio_filenames
          = files.filter (fun f => isAudioFile f && d f) ∧
      (load_audio_files (some files) d s).preloaded_sounds
          = (files.filter (fun f => isAudioFile f && d f)).map full_path ∧
      (∀ f ∈ files, isAudioFile f = true → d f = false →
        ("  Failed to load " ++ f) ∈ (load_audio_files (some files) d s).log)) ∧
    (∀ (d : String → Bool) (s : AudioState),
      (load_audio_files none d s).audio_filenames = [] ∧
      (load_audio_files none d s).preloaded_sounds = []) ∧
    (load_audio_files (some ["a.wav", "b.mp3", "c.WAV", "d.txt"]) (fun _ => true)
        initAudioState).audio_filenames = ["a.wav", "b.mp3", "c.WAV"] := by
  refine ⟨fun files d s => ⟨?_, ?_, ?_⟩, fun d s => ⟨rfl, rfl⟩, by decide⟩
  · rw [load_audio_files]; exact loadLoop_filenames d files _
  · rw [load_audio_files]; exact loadLoop_sounds d files _
  · intro f hf haudio hfail
    rw [load_audio_files]
    exact loadLoop_failed_log d files _ f hf haudio hfail

/-- Claim C7 witness: the scenario directory keeps exactly the three audio
entries in listing order, and a failing decode leaves its log line. -/
theorem claim7_witness :
    (load_audio_files (some ["a.wav", "b.mp3", "c.WAV", "d.txt"]) (fun _ => true)
        initAudioState).audio_filenames = ["a.wav", "b.mp3", "c.WAV"] ∧
    ("  Failed to load " ++ "bad.wav")
        ∈ (load_audio_files (some ["bad.wav"]) (fun _ => false) initAudioState).log := by
  refine ⟨claim7_load_audio_files.2.2, ?_⟩
  exact (claim7_load_audio_files.1 ["bad.wav"] (fun _ => false) initAudioState).2.2
    "bad.wav" (by decide) (by decide) rfl

/-- Claim C8.  On an empty library play_random_sound returns the failure
dict (success false, no filename) for every rng draw, and
play_audio_sequence plays nothing and returns at once; on a nonempty
library the selected index is exactly the random.randint draw over the
bounds 0 and N - 1, so every index below N is selected under the
corresponding draw and the pick is uniform whenever the draw is. -/
theorem claim8_pick_random_and_empty_phase_a :
    (∀ (rng : Nat → Nat → Nat) (s : AudioState), s.preloaded_sounds = [] →
        play_random_sound rng s
          = { success := false, message := "No audio files available to play.",
              filename := none, total_sounds := none }) ∧
    (∀ (choices : List (Nat × ℚ × ℚ)) (s : AudioState), s.preloaded_sounds = [] →
        play_audio_sequence choices s = []) ∧
    (∀ (rng : Nat → Nat → Nat) (s : AudioState), s.preloaded_sounds ≠ [] →
        play_random_sound rng s
          = { success := true,
              message := "Playing "
                ++ s.audio_filenames.getD (rng 0 (s.preloaded_sounds.length - 1)) "",
              filename :=
                some (s.audio_filenames.getD (rng 0 (s.preloaded_sounds.length - 1)) ""),
              total_sounds := some s.preloaded_sounds.length }) ∧
    (∀ (s : AudioState) (i : Nat), i < s.preloaded_sounds.length →
        (play_random_sound (fun _ _ => i) s).filename
          = some (s.audio_filenames.getD i "")) := by
  refine ⟨?_, ?_, ?_, ?_⟩
  · intro rng s h
    simp [play_random_sound, h]
  · intro choices s h
    simp [play_audio_sequence, h]
  · intro rng s h
    simp [play_random_sound, List.isEmpty_iff, h]
  · intro s i hi
    have h : s.preloaded_sounds ≠ [] := by
      intro h0
      rw [h0] at hi
      exact absurd hi (by simp)
    simp [play_random_sound, List.isEmpty_iff, h]

/-- Claim C8 witness: concrete empty-library failure and no-op, and a
concrete pick of index 1 out of two assets. -/
theorem claim8_witness :
    play_random_sound (fun _ _ => 0) initAudioState
        = { success := false, message := "No audio files available to play.",
            filename := none, total_sounds := none } ∧
    play_audio_sequence [] initAudioState = [] ∧
    (play_random_sound (fun _ _ => 1)
        (AudioState.mk ["/mnt/samba/a.wav", "/mnt/samba/b.mp3"] ["a.wav", "b.mp3"] [])).filename
      = some "b.mp3" := by
  refine ⟨claim8_pick_random_and_empty_phase_a.1 (fun _ _ => 0) initAudioState rfl,
          claim8_pick_random_and_empty_phase_a.2.1 [] initAudioState rfl, ?_⟩
  have h := claim8_pick_random_and_empty_phase_a.2.2.2
    (AudioState.mk ["/mnt/samba/a.wav", "/mnt/samba/b.mp3"] ["a.wav", "b.mp3"] [])
    1 (by decide)
  exact h.trans (by decide)

/-- Claim C3 is violated by the code: load_audio_files clears the two lists
in place and rebuilds them incrementally, so a reader interleaved with the
reload can observe pairs that are neither the complete pre-reload sequence
nor the complete post-reload one — the cleared sounds list still paired
with the old filename list, and a sounds list one entry ahead of the
filename list.  The final state does equal the new sequence. -/
theorem claim3_reload_observable_torn_state :
    (((([] : List String), ["a.wav"]))
        ∈ load_audio_files_trace (AudioState.mk ["/mnt/samba/a.wav"] ["a.wav"] [])
            ["b.wav", "c.wav"] (fun _ => true)) ∧
    (((["/mnt/samba/b.wav"], ([] : List String)))
        ∈ load_audio_files_trace (AudioState.mk ["/mnt/samba/a.wav"] ["a.wav"] [])
            ["b.wav", "c.wav"] (fun _ => true)) ∧
    ((([] : List String), ["a.wav"]) ≠ (["/mnt/samba/a.wav"], ["a.wav"])) ∧
    ((([] : List String), ["a.wav"])
        ≠ (["/mnt/samba/b.wav", "/mnt/samba/c.wav"], ["b.wav", "c.wav"])) ∧
    ((load_audio_files (some ["b.wav", "c.wav"]) (fun _ => true)
        (AudioState.mk ["/mnt/samba/a.wav"] ["a.wav"] [])).preloaded_sounds
      = ["/mnt/samba/b.wav", "/mnt/samba/c.wav"]) ∧
    ((load_audio_files (some ["b.wav", "c.wav"]) (fun _ => true)
        (AudioState.mk ["/mnt/samba/a.wav"] ["a.wav"] [])).audio_filenames
      = ["b.wav", "c.wav"]) := by
  refine ⟨?_, ?_, ?_, ?_, ?_, ?_⟩ <;> decide

/-- Claim C4.  A trigger arriving while the flag is set only logs the
rejection: the library, the LED level and call trace, the servo trace, the
played list and the busy flag itself are unchanged, the outcome is normal,
and the result does not depend on the fault oracle, the rng draws or the
channel. -/
theorem claim4_busy_rejection_no_side_effects :
    ∀ (fs : FaultSpec) (choices : List (Nat × ℚ × ℚ)) (delay : ℚ)
      (channel : Option Int) (s : CtrlState), s.callback_in_progress = true →
      button_callback fs choices delay channel s
        = ({ s with log := s.log ++ ["Button press ignored - action already in progress"] },
            Outcome.normal) := by
  intro fs choices delay channel s h
  simp [button_callback, h]

/-- Claim C4 witness: a concrete busy rejection, with every fault injected
and an arbitrary channel, changes nothing but the log. -/
theorem claim4_witness :
    button_callback (FaultSpec.mk true true true true) [] 10 none
        (CtrlState.mk true true [] initAudioState [] [] [])
      = (CtrlState.mk true true [] initAudioState [] []
          ["Button press ignored - action already in progress"], Outcome.normal) := by
  have h := claim4_busy_rejection_no_side_effects (FaultSpec.mk true true true true) [] 10
    none (CtrlState.mk true true [] initAudioState [] [] []) rfl
  exact h.trans (by decide)

/-- Claim C10.  button_callback never reads its channel argument, so a
hardware-button invocation (some pin) and an HTTP invocation (none) with the
same library, actuator and busy-flag state produce identical states and
outcomes. -/
theorem claim10_channel_independence :
    ∀ (fs : FaultSpec) (choices : List (Nat × ℚ × ℚ)) (delay : ℚ)
      (c1 c2 : Option Int) (s : CtrlState),
      button_callback fs choices delay c1 s = button_callback fs choices delay c2 s :=
  fun _ _ _ _ _ _ => rfl

/-- Claim C1, counterexample.  button_callback has try/finally but no
except: a fault raised by the indicator-ON call is re-raised past trigger
(first conjunct), and a fault raised by the indicator-OFF call in the
finally block aborts the release, leaving busy = true (second conjunct). -/
theorem claim1_counterexample_indicator_fault_escapes :
    ((button_callback (FaultSpec.mk true false false false) [] 10 none
        (CtrlState.mk false false [] initAudioState [] [] [])).2
      = Outcome.raised Fault.ledOn) ∧
    ((button_callback (FaultSpec.mk false true false false) [] 10 none
        (CtrlState.mk false false [] initAudioState [] [] [])).1.callback_in_progress
      = true) := by
  constructor <;> decide

/-- Claim C1, amended.  Provided the two indicator calls themselves do not
fault, every run that passes the busy check releases correctly whatever
phase A or phase B do: the outcome is normal (phase faults are contained by
the phase-A handler and the thread boundary and are logged), busy is false
again, and the indicator was turned on then off exactly once. -/
theorem claim1_scoped_release_amended :
    ∀ (fs : FaultSpec) (choices : List (Nat × ℚ × ℚ)) (delay : ℚ)
      (channel : Option Int) (s : CtrlState),
      s.callback_in_progress = false →
      fs.ledOnFaults = false → fs.ledOffFaults = false →
      (button_callback fs choices delay channel s).2 = Outcome.normal ∧
      (button_callback fs choices delay channel s).1.callback_in_progress = false ∧
      (button_callback fs choices delay channel s).1.led = false ∧
      (button_callback fs choices delay channel s).1.ledCalls
          = s.ledCalls ++ [true, false] ∧
      (fs.servoFaults = true →
        "Exception in thread servo" ∈ (button_callback fs choices delay channel s).1.log) ∧
      (fs.audioFaults = true → s.lib.preloaded_sounds ≠ [] →
        "Error playing audio" ∈ (button_callback fs choices delay channel s).1.log) := by
  intro fs choices delay channel s h hOn hOff
  obtain ⟨fOn, fOff, au, sv⟩ := fs
  have hOn' : fOn = false := hOn
  have hOff' : fOff = false := hOff
  subst hOn'
  subst hOff'
  by_cases hE : s.lib.preloaded_sounds.isEmpty <;> cases au <;> cases sv <;>
    simp [button_callback, set_led, audioPhase, servoPhase, h, hE, List.isEmpty_iff] <;>
    simp_all [List.isEmpty_iff]

/-- Claim C1 witness: with both phases faulting and a nonempty library, a
concrete run still ends released, with both faults logged and a normal
return. -/
theorem claim1_witness :
    ((button_callback (FaultSpec.mk false false true true) [] 10 none
        (CtrlState.mk false false []
          (AudioState.mk ["/mnt/samba/a.wav"] ["a.wav"] []) [] [] [])).2
      = Outcome.normal) ∧
    ((button_callback (FaultSpec.mk false false true true) [] 10 none
        (CtrlState.mk false false []
          (AudioState.mk ["/mnt/samba/a.wav"] ["a.wav"] []) [] [] [])).1.callback_in_progress
      = false) ∧
    ((button_callback (FaultSpec.mk false false true true) [] 10 none
        (CtrlState.mk false false []
          (AudioState.mk ["/mnt/samba/a.wav"] ["a.wav"] []) [] [] [])).1.ledCalls
      = [true, false]) ∧
    ("Exception in thread servo"
        ∈ (button_callback (FaultSpec.mk false false true true) [] 10 none
            (CtrlState.mk false false []
              (AudioState.mk ["/mnt/samba/a.wav"] ["a.wav"] []) [] [] [])).1.log) ∧
    ("Error playing audio"
        ∈ (button_callback (FaultSpec.mk false false true true) [] 10 none
            (CtrlState.mk false false []
              (AudioState.mk ["/mnt/samba/a.wav"] ["a.wav"] []) [] [] [])).1.log) := by
  have h := claim1_scoped_release_amended (FaultSpec.mk false false true true) [] 10 none
    (CtrlState.mk false false [] (AudioState.mk ["/mnt/samba/a.wav"] ["a.wav"] []) [] [] [])
    rfl rfl rfl
  exact ⟨h.1, h.2.1, (h.2.2.2.1).trans (by decide), h.2.2.2.2.1 rfl,
    h.2.2.2.2.2 rfl (by decide)⟩

/-- Claim C2 is violated by the code: the busy check at
src/trickster_controller.py:26 and the write at line 31 are separate
interpreter steps with no lock, so the schedule that runs both checks
before either write lets both concurrent triggers pass the check and both
sequences run with the flag set. -/
theorem claim2_check_and_set_race :
    ((raceRun [true, false, true, false] raceInit).t1 = TPhase.running) ∧
    ((raceRun [true, false, true, false] raceInit).t2 = TPhase.running) ∧
    ((raceRun [true, false, true, false] raceInit).busy = true) := by
  refine ⟨?_, ?_, ?_⟩ <;> decide

/-! For contrast with the race above: when one trigger completes its
check-and-set before the other thread reads the flag, mutual exclusion does
hold — the second thread can only be rejected. -/

lemma raceStep_preserves (tid : Bool) (s : RaceState) (hs : raceInv s) :
    raceInv (raceStep tid s) := by
  obtain ⟨hb, h1, h2⟩ := hs
  cases tid
  · rcases h2 with h2 | h2 <;> simp [raceStep, stepThread, hb, h1, h2, raceInv]
  · simp [raceStep, stepThread, hb, h1, raceInv, h2]

lemma raceRun_preserves (sched : List Bool) :
    ∀ s : RaceState, raceInv s → raceInv (raceRun sched s) := by
  induction sched with
  | nil => intro s hs; exact hs
  | cons t rest ih =>
      intro s hs
      exact ih (raceStep t s) (raceStep_preserves t s hs)

lemma race_serialized (rest : List Bool) :
    (raceRun ([true, true] ++ rest) raceInit).t2 ≠ TPhase.running := by
  have h0 : raceInv (raceRun [true, true] raceInit) := by
    refine ⟨rfl, rfl, Or.inl rfl⟩
  have h1 : raceRun ([true, true] ++ rest) raceInit
      = raceRun rest (raceRun [true, true] raceInit) := by
    simp [raceRun, List.foldl_append]
  rw [h1]
  have h2 := raceRun_preserves rest _ h0
  rcases h2.2.2 with h | h <;> simp [h]

/-! Heap lemmas for the snapshot claim. -/

lemma readRef_alloc_old (h : Heap) (v : List String) (r : Nat)
    (hr : r < h.cells.length) : readRef (allocRef h v).2 r = readRef h r := by
  simp [readRef, allocRef, List.getD_eq_getElem?_getD, List.getElem?_append, hr]

lemma readRef_alloc_new (h : Heap) (v : List String) :
    readRef (allocRef h v).2 (allocRef h v).1 = v := by
  simp [readRef, allocRef, List.getD_eq_getElem?_getD]

lemma readRef_write_ne (h : Heap) (r1 r2 : Nat) (v : List String) (hne : r1 ≠ r2) :
    readRef (writeRef h r1 v) r2 = readRef h r2 := by
  simp [readRef, writeRef, List.getD_eq_getElem?_getD, List.getElem?_set_ne hne]

lemma readRef_reload_old (ns nn : List String) (lib : AudioRefs) (h : Heap) (r : Nat)
    (hr : r < h.cells.length) :
    readRef (load_audio_files_refs ns nn lib h).2 r = readRef h r := by
  unfold load_audio_files_refs
  rw [readRef_write_ne, readRef_write_ne, readRef_alloc_old, readRef_alloc_old]
  · exact hr
  · simp [allocRef] <;> omega
  · simp [allocRef] <;> omega
  · simp [allocRef] <;> omega

/-- Claim C9.  get_audio_info is a read-only snapshot: it leaves every
existing object unchanged, reports the loaded count and the filename list
contents, and returns a fresh list object distinct from the internal one, so
that mutating the returned list, or reloading the library afterwards, leaves
the snapshot contents intact. -/
theorem claim9_info_read_only_snapshot :
    ∀ (lib : AudioRefs) (h : Heap),
      lib.preloadedRef < h.cells.length → lib.filenamesRef < h.cells.length →
      (∀ r, r < h.cells.length → readRef (get_audio_info lib h).2 r = readRef h r) ∧
      (get_audio_info lib h).1.total_sounds = (readRef h lib.preloadedRef).length ∧
      readRef (get_audio_info lib h).2 (get_audio_info lib h).1.soundsRef
          = readRef h lib.filenamesRef ∧
      (get_audio_info lib h).1.soundsRef ≠ lib.filenamesRef ∧
      (∀ v, readRef (writeRef (get_audio_info lib h).2 (get_audio_info lib h).1.soundsRef v)
          lib.filenamesRef = readRef h lib.filenamesRef) ∧
      (∀ ns nn, readRef (load_audio_files_refs ns nn lib (get_audio_info lib h).2).2
          (get_audio_info lib h).1.soundsRef = readRef h lib.filenamesRef) := by
  intro lib h hp hf
  refine ⟨fun r hr => readRef_alloc_old h _ r hr, rfl, readRef_alloc_new h _, ?_, ?_, ?_⟩
  · intro e
    have : (get_audio_info lib h).1.soundsRef = h.cells.length := rfl
    omega
  · intro v
    have hne : (get_audio_info lib h).1.soundsRef ≠ lib.filenamesRef := by
      intro e
      have he : (get_audio_info lib h).1.soundsRef = h.cells.length := rfl
      omega
    rw [readRef_write_ne _ _ _ _ hne]
    exact readRef_alloc_old h _ _ hf
  · intro ns nn
    rw [readRef_reload_old _ _ _ _ _ (by simp [get_audio_info, allocRef] <;> omega)]
    exact readRef_alloc_new h _

/-- Claim C9 witness: a snapshot of a one-asset library survives a reload
that replaces the library contents. -/
theorem claim9_witness :
    (readRef (get_audio_info (AudioRefs.mk 0 1)
        (Heap.mk [["/mnt/samba/a.wav"], ["a.wav"]])).2
      (get_audio_info (AudioRefs.mk 0 1)
        (Heap.mk [["/mnt/samba/a.wav"], ["a.wav"]])).1.soundsRef = ["a.wav"]) ∧
    ((get_audio_info (AudioRefs.mk 0 1)
        (Heap.mk [["/mnt/samba/a.wav"], ["a.wav"]])).1.total_sounds = 1) ∧
    ((get_audio_info (AudioRefs.mk 0 1)
        (Heap.mk [["/mnt/samba/a.wav"], ["a.wav"]])).1.soundsRef ≠ 1) ∧
    (readRef (load_audio_files_refs ["/mnt/samba/b.wav"] ["b.wav"] (AudioRefs.mk 0 1)
        (get_audio_info (AudioRefs.mk 0 1)
          (Heap.mk [["/mnt/samba/a.wav"], ["a.wav"]])).2).2
      (get_audio_info (AudioRefs.mk 0 1)
        (Heap.mk [["/mnt/samba/a.wav"], ["a.wav"]])).1.soundsRef = ["a.wav"]) := by
  have h := claim9_info_read_only_snapshot (AudioRefs.mk 0 1)
    (Heap.mk [["/mnt/samba/a.wav"], ["a.wav"]]) (by decide) (by decide)
  exact ⟨h.2.2.1.trans (by decide), h.2.1.trans (by decide), h.2.2.2.1,
    (h.2.2.2.2.2 ["/mnt/samba/b.wav"] ["b.wav"]).trans (by decide)⟩

end TricksterPi
